import Mathlib

/-!
Verification of the processing-orchestration layer of the Tinkle desktop
assistant (files `electron/ProcessingHelper.ts` and `electron/LLMHelper.ts`).

The embedding models:
- the orchestrator state held by `ProcessingHelper` together with the parts
  of `AppState` it reads and writes (view, screenshot queues, problem info,
  `hasDebugged`, the two abort-controller fields);
- the events sent to the renderer via `mainWindow.webContents.send`;
- the adapter (`LLMHelper`) calls as an environment supplying the outcome of
  each awaited call, since those outcomes come from the network;
- the mutable provider fields of `LLMHelper` and its provider-switch
  operations, with the suspension points of an in-flight request made
  explicit, for the claims about mid-flight provider switches and
  cancellation.
-/

/-- Lifecycle event kinds (`AppState.PROCESSING_EVENTS`). -/
inductive EventKind where
  | INITIAL_START
  | PROBLEM_EXTRACTED
  | INITIAL_SOLUTION_ERROR
  | DEBUG_START
  | DEBUG_SUCCESS
  | DEBUG_ERROR
  | NO_SCREENSHOTS
deriving DecidableEq, Repr

/-- Result of `analyzeAudioFile` / `analyzeImageFile`:
`{ text: response.text(), timestamp: Date.now() }`. -/
structure AnalysisResult where
  text : String
  timestamp : Nat
deriving DecidableEq, Repr

/-- `input_format` field shapes used by the two branches of
`processScreenshots`: `{}` in the audio branch,
`{ description: "Generated from screenshot", parameters: [] }` in the image
branch. -/
structure InputFormat where
  description : Option String
  parameters : List String
deriving DecidableEq, Repr

/-- `output_format` field shapes: `{}` in the audio branch,
`{ description, type, subtype }` in the image branch. -/
structure OutputFormat where
  description : Option String
  type : Option String
  subtype : Option String
deriving DecidableEq, Repr

/-- `complexity: { time: "N/A", space: "N/A" }` (image branch only). -/
structure Complexity where
  time : String
  space : String
deriving DecidableEq, Repr

/-- The problem-info record stored via `appState.setProblemInfo`.  Optional
fields are the ones present in only one of the two builders in
`ProcessingHelper.processScreenshots`. -/
structure ProblemInfo where
  problem_statement : String
  input_format : InputFormat
  output_format : OutputFormat
  constraints : Option (List String)
  test_cases : List String
  complexity : Option Complexity
  validation_type : Option String
  difficulty : Option String
deriving DecidableEq, Repr

/-- Parsed JSON returned by `debugSolutionWithImages` (used opaquely by the
orchestrator: it is only forwarded to the renderer). -/
structure DebugResult where
  feedback : String
deriving DecidableEq, Repr

/-- `generateSolution` result, of which the orchestrator reads only
`currentSolution.solution.code`. -/
structure Solution where
  code : String
deriving DecidableEq, Repr

/-- Payload attached to an event by `webContents.send`. -/
inductive EventPayload where
  | noPayload
  | analysisPayload (r : AnalysisResult)
  | problemPayload (p : ProblemInfo)
  | messagePayload (message : String)
  | debugPayload (d : DebugResult)
deriving DecidableEq, Repr

/-- One published event. -/
structure Event where
  kind : EventKind
  payload : EventPayload
deriving DecidableEq, Repr

/-- Outcome of an awaited adapter call: the promise either fulfils with a
value or rejects with an error whose `.message` the orchestrator publishes. -/
inductive CallResult (α : Type) where
  | ok (value : α)
  | err (message : String)
deriving DecidableEq, Repr

/-- An `AbortController`; `aborted` is the state of its signal.  A fresh
controller (`new AbortController()`) starts with `aborted = false`. -/
structure AbortController where
  aborted : Bool
deriving DecidableEq, Repr

/-- `AppState` view: `"queue"` or `"solutions"`. -/
inductive View where
  | queue
  | solutions
deriving DecidableEq, Repr

/-- The slice of `AppState` read and written by `ProcessingHelper`. -/
structure AppStateModel where
  mainWindowPresent : Bool
  view : View
  screenshotQueue : List String
  extraScreenshotQueue : List String
  problemInfo : Option ProblemInfo
  hasDebugged : Bool
deriving DecidableEq, Repr

/-- `ProcessingHelper` instance state: the `AppState` slice plus the two
nullable abort-controller fields. -/
structure ProcState where
  app : AppStateModel
  currentProcessingAbortController : Option AbortController
  currentExtraProcessingAbortController : Option AbortController
deriving DecidableEq, Repr

/-- Which `LLMHelper` operations a call to `processScreenshots` invoked. -/
inductive AdapterOp where
  | analyzeAudioFileOp (path : String)
  | analyzeImageFileOp (path : String)
  | generateSolutionOp
  | debugSolutionOp
deriving DecidableEq, Repr

/-- Environment fixing the outcome of each awaited `LLMHelper` call during
one run of `processScreenshots`. -/
structure AdapterEnv where
  audioOutcome : String → CallResult AnalysisResult
  imageOutcome : String → CallResult AnalysisResult
  solutionOutcome : ProblemInfo → CallResult Solution
  debugOutcome : ProblemInfo → String → List String → CallResult DebugResult

/-- The problem info built in the audio branch:
`{ problem_statement: audioResult.text, input_format: {}, output_format: {},
constraints: [], test_cases: [] }`. -/
def audioProblemInfo (text : String) : ProblemInfo where
  problem_statement := text
  input_format := ⟨none, []⟩
  output_format := ⟨none, none, none⟩
  constraints := some []
  test_cases := []
  complexity := none
  validation_type := none
  difficulty := none

/-- The problem info built in the image branch of `processScreenshots`. -/
def imageProblemInfo (text : String) : ProblemInfo where
  problem_statement := text
  input_format := ⟨some "Generated from screenshot", []⟩
  output_format := ⟨some "Generated from screenshot", some "string", some "text"⟩
  constraints := none
  test_cases := []
  complexity := some ⟨"N/A", "N/A"⟩
  validation_type := some "manual"
  difficulty := some "custom"

/-- JavaScript `String.prototype.endsWith(pat)` (no position argument): a
literal, case-sensitive suffix test, modelled over the character
sequence of the string. -/
def endsWithText (s pat : String) : Bool :=
  pat.data.isSuffixOf s.data

/-- The audio-extension test at `ProcessingHelper.ts:79`:
`lastPath.endsWith(".mp3") || lastPath.endsWith(".wav")`. -/
def isAudioSuffix (path : String) : Bool :=
  endsWithText path ".mp3" || endsWithText path ".wav"

/-- Result of one call to `processScreenshots`: the state after the call,
the events sent to the renderer in order, and the adapter operations
invoked in order. -/
structure ProcResult where
  state : ProcState
  events : List Event
  calls : List AdapterOp
deriving DecidableEq, Repr

/-- `ProcessingHelper.processScreenshots`, run to completion with the
awaited adapter outcomes supplied by `env`.  Mirrors the source
control flow: early return when there is no main window; queue view with
the empty check, the audio branch and the image branch (the image branch
opens and, in `finally`, clears the primary abort controller); otherwise
the debug branch with the empty check, the missing-problem-info throw
caught by the surrounding `catch`, and the extra abort controller cleared
in `finally`. -/
def processScreenshots (env : AdapterEnv) (s : ProcState) : ProcResult :=
  if s.app.mainWindowPresent = false then
    { state := s, events := [], calls := [] }
  else
    match s.app.view with
    | View.queue =>
      if s.app.screenshotQueue.isEmpty then
        { state := s, events := [⟨EventKind.NO_SCREENSHOTS, EventPayload.noPayload⟩],
          calls := [] }
      else
        let lastPath := s.app.screenshotQueue.getLast?.getD ""
        if isAudioSuffix lastPath then
          let s1 : ProcState := { s with app := { s.app with view := View.solutions } }
          match env.audioOutcome lastPath with
          | CallResult.ok audioResult =>
            { state := { s1 with app :=
                { s1.app with problemInfo := some (audioProblemInfo audioResult.text) } }
              events := [⟨EventKind.INITIAL_START, EventPayload.noPayload⟩,
                         ⟨EventKind.PROBLEM_EXTRACTED, EventPayload.analysisPayload audioResult⟩]
              calls := [AdapterOp.analyzeAudioFileOp lastPath] }
          | CallResult.err m =>
            { state := s1
              events := [⟨EventKind.INITIAL_START, EventPayload.noPayload⟩,
                         ⟨EventKind.INITIAL_SOLUTION_ERROR, EventPayload.messagePayload m⟩]
              calls := [AdapterOp.analyzeAudioFileOp lastPath] }
        else
          let s1 : ProcState := { s with
            app := { s.app with view := View.solutions }
            currentProcessingAbortController := some ⟨false⟩ }
          match env.imageOutcome lastPath with
          | CallResult.ok imageResult =>
            let problemInfo := imageProblemInfo imageResult.text
            { state := { s1 with
                app := { s1.app with problemInfo := some problemInfo }
                currentProcessingAbortController := none }
              events := [⟨EventKind.INITIAL_START, EventPayload.noPayload⟩,
                         ⟨EventKind.PROBLEM_EXTRACTED, EventPayload.problemPayload problemInfo⟩]
              calls := [AdapterOp.analyzeImageFileOp lastPath] }
          | CallResult.err m =>
            { state := { s1 with currentProcessingAbortController := none }
              events := [⟨EventKind.INITIAL_START, EventPayload.noPayload⟩,
                         ⟨EventKind.INITIAL_SOLUTION_ERROR, EventPayload.messagePayload m⟩]
              calls := [AdapterOp.analyzeImageFileOp lastPath] }
    | View.solutions =>
      if s.app.extraScreenshotQueue.isEmpty then
        { state := s, events := [⟨EventKind.NO_SCREENSHOTS, EventPayload.noPayload⟩],
          calls := [] }
      else
        let s1 : ProcState := { s with
          currentExtraProcessingAbortController := some ⟨false⟩ }
        match s.app.problemInfo with
        | none =>
          { state := { s1 with currentExtraProcessingAbortController := none }
            events := [⟨EventKind.DEBUG_START, EventPayload.noPayload⟩,
                       ⟨EventKind.DEBUG_ERROR,
                        EventPayload.messagePayload "No problem info available"⟩]
            calls := [] }
        | some problemInfo =>
          match env.solutionOutcome problemInfo with
          | CallResult.err m =>
            { state := { s1 with currentExtraProcessingAbortController := none }
              events := [⟨EventKind.DEBUG_START, EventPayload.noPayload⟩,
                         ⟨EventKind.DEBUG_ERROR, EventPayload.messagePayload m⟩]
              calls := [AdapterOp.generateSolutionOp] }
          | CallResult.ok currentSolution =>
            match env.debugOutcome problemInfo currentSolution.code
                s.app.extraScreenshotQueue with
            | CallResult.ok debugResult =>
              { state := { s1 with
                  app := { s1.app with hasDebugged := true }
                  currentExtraProcessingAbortController := none }
                events := [⟨EventKind.DEBUG_START, EventPayload.noPayload⟩,
                           ⟨EventKind.DEBUG_SUCCESS, EventPayload.debugPayload debugResult⟩]
                calls := [AdapterOp.generateSolutionOp, AdapterOp.debugSolutionOp] }
            | CallResult.err m =>
              { state := { s1 with currentExtraProcessingAbortController := none }
                events := [⟨EventKind.DEBUG_START, EventPayload.noPayload⟩,
                           ⟨EventKind.DEBUG_ERROR, EventPayload.messagePayload m⟩]
                calls := [AdapterOp.generateSolutionOp, AdapterOp.debugSolutionOp] }

/-- `ProcessingHelper.cancelOngoingRequests`: aborts whichever controllers
are present, nulls both fields, and resets `hasDebugged` to `false`.  The
two booleans record whether `abort()` was signalled on the primary and
extra controller respectively. -/
def cancelOngoingRequests (s : ProcState) : ProcState × Bool × Bool :=
  ({ s with
      currentProcessingAbortController := none
      currentExtraProcessingAbortController := none
      app := { s.app with hasDebugged := false } },
   s.currentProcessingAbortController.isSome,
   s.currentExtraProcessingAbortController.isSome)

/-- `LLMHelper.initializeOllamaModel`, with the outcomes of the awaited
network calls supplied as arguments: `models` is the list returned by
`getOllamaModels` inside the `try` block, `probeOk` says whether the
`callOllama("Hello")` probe succeeded, and `refetched` is the list returned
by the second `getOllamaModels` call in the `catch` block.
`getOllamaModels` itself never throws (it returns `[]` on any error), so
the function always returns normally; the result is the final value of
`this.ollamaModel`, starting from the configured value `cfg`. -/
def initializeOllamaModel (models refetched : List String) (probeOk : Bool)
    (cfg : String) : String :=
  match models with
  | [] => cfg
  | m :: _ =>
    let chosen := if models.contains cfg then cfg else m
    if probeOk then chosen
    else
      match refetched with
      | [] => chosen
      | m2 :: _ => m2

/-- A Gemini model handle (`genAI.getGenerativeModel({ model: ... })`);
`tag` identifies which construction produced the handle, so responses
obtained through distinct handles are distinguishable. -/
structure GeminiModel where
  tag : String
deriving DecidableEq, Repr

/-- The mutable provider fields of the single shared `LLMHelper` instance. -/
structure LLMState where
  model : Option GeminiModel
  useOllama : Bool
  ollamaModel : String
  ollamaUrl : String
deriving DecidableEq, Repr

/-- `new GoogleGenerativeAI(apiKey).getGenerativeModel({ model:
"gemini-2.0-flash" })`: a fresh model handle, identified by its key. -/
def geminiModelOf (apiKey : String) : GeminiModel :=
  ⟨apiKey⟩

/-- `LLMHelper.switchToGemini`: mutates the shared helper fields in place
(replaces `this.model` when a key is given, throws when neither a key nor
an existing model handle is available, and clears `useOllama`). -/
def switchToGemini (apiKey : Option String) (h : LLMState) :
    Except String LLMState :=
  let h1 := match apiKey with
    | some k => { h with model := some (geminiModelOf k) }
    | none => h
  if h1.model.isNone && apiKey.isNone then
    Except.error "No Gemini API key provided and no existing model instance"
  else
    Except.ok { h1 with useOllama := false }

/-- `LLMHelper.switchToOllama`: mutates the shared helper fields in place;
when no model name is given it runs `initializeOllamaModel`, whose network
outcomes are the extra arguments. -/
def switchToOllama (modelArg urlArg : Option String)
    (models refetched : List String) (probeOk : Bool) (h : LLMState) :
    LLMState :=
  let h1 := { h with useOllama := true }
  let h2 := match urlArg with
    | some u => { h1 with ollamaUrl := u }
    | none => h1
  match modelArg with
  | some m => { h2 with ollamaModel := m }
  | none =>
    { h2 with ollamaModel :=
        initializeOllamaModel models refetched probeOk h2.ollamaModel }

/-- Trace state for one in-flight `analyzeImageFile` request running
against the shared helper: the helper fields, and the model handle on
which the request issued its `generateContent` call (`none` while the
request has not reached that point). -/
structure TraceState where
  helper : LLMState
  usedModel : Option GeminiModel
deriving DecidableEq, Repr

/-- The interleaving-relevant steps of one `analyzeImageFile` request and
of a concurrent provider switch.  `analyzeImageFile` first awaits
`fs.promises.readFile(imagePath)` (a suspension that touches no helper
field) and only then reads `this.model` and calls `generateContent` on it;
a switch can run to completion during the suspension because the event
loop interleaves whole synchronous segments. -/
inductive HelperStep where
  | fileReadStep
  | switchGeminiStep (apiKey : String)
  | generateStep
deriving DecidableEq, Repr

/-- Effect of one step on the trace state. -/
def stepRun (t : TraceState) : HelperStep → TraceState
  | HelperStep.fileReadStep => t
  | HelperStep.switchGeminiStep k =>
    match switchToGemini (some k) t.helper with
    | Except.ok h2 => { t with helper := h2 }
    | Except.error _ => t
  | HelperStep.generateStep => { t with usedModel := t.helper.model }

/-- Run an interleaving of steps from an initial helper state. -/
def runSteps (steps : List HelperStep) (h : LLMState) : TraceState :=
  steps.foldl stepRun ⟨h, none⟩

/-- The synchronous prefix of the image branch of `processScreenshots`,
up to the `await this.llmHelper.analyzeImageFile(lastPath)` suspension:
sends `INITIAL_START`, sets the view to solutions, and installs a fresh
primary abort controller. -/
def imagePhase1 (s : ProcState) : ProcState × List Event :=
  ({ s with
      app := { s.app with view := View.solutions }
      currentProcessingAbortController := some ⟨false⟩ },
   [⟨EventKind.INITIAL_START, EventPayload.noPayload⟩])

/-- The continuation of the image branch after the awaited adapter call
settles with outcome `res`: publishes the terminal event, stores the
problem info on success, and clears the primary abort controller in
`finally`.  The outcome `res` is produced by `analyzeImageFile`, which
takes no abort signal, so it is independent of anything
`cancelOngoingRequests` did in the meantime. -/
def imagePhase2 (res : CallResult AnalysisResult) (s : ProcState) :
    ProcState × List Event :=
  match res with
  | CallResult.ok imageResult =>
    let problemInfo := imageProblemInfo imageResult.text
    ({ s with
        app := { s.app with problemInfo := some problemInfo }
        currentProcessingAbortController := none },
     [⟨EventKind.PROBLEM_EXTRACTED, EventPayload.problemPayload problemInfo⟩])
  | CallResult.err m =>
    ({ s with currentProcessingAbortController := none },
     [⟨EventKind.INITIAL_SOLUTION_ERROR, EventPayload.messagePayload m⟩])

/-- The synchronous prefix of the debug branch of `processScreenshots`
when problem info is present, up to the `await generateSolution`
suspension: sends `DEBUG_START` and installs a fresh extra abort
controller.  (When problem info is absent the whole branch runs without
any suspension, so no cancellation can interleave with it.) -/
def debugPhase1 (s : ProcState) : ProcState × List Event :=
  ({ s with currentExtraProcessingAbortController := some ⟨false⟩ },
   [⟨EventKind.DEBUG_START, EventPayload.noPayload⟩])

/-- The continuation of the debug branch after the awaited
`generateSolution` call settles with `solRes` and, when it succeeded, the
awaited `debugSolutionWithImages` call settles with `dbgOutcome` applied
to the generated code: on success sets `hasDebugged := true` and
publishes `DEBUG_SUCCESS`, on failure publishes `DEBUG_ERROR`, and clears
the extra abort controller in `finally`.  Neither adapter call receives
the abort signal, so both outcomes are independent of a concurrent
`cancelOngoingRequests`. -/
def debugPhase2 (solRes : CallResult Solution)
    (dbgOutcome : String → CallResult DebugResult) (s : ProcState) :
    ProcState × List Event :=
  match solRes with
  | CallResult.err m =>
    ({ s with currentExtraProcessingAbortController := none },
     [⟨EventKind.DEBUG_ERROR, EventPayload.messagePayload m⟩])
  | CallResult.ok sol =>
    match dbgOutcome sol.code with
    | CallResult.ok d =>
      ({ s with
          app := { s.app with hasDebugged := true }
          currentExtraProcessingAbortController := none },
       [⟨EventKind.DEBUG_SUCCESS, EventPayload.debugPayload d⟩])
    | CallResult.err m =>
      ({ s with currentExtraProcessingAbortController := none },
       [⟨EventKind.DEBUG_ERROR, EventPayload.messagePayload m⟩])

/-- A sample adapter environment with constant outcomes, used to build
concrete runs. -/
def sampleEnv : AdapterEnv where
  audioOutcome := fun _ => CallResult.ok ⟨"transcript", 5⟩
  imageOutcome := fun _ => CallResult.ok ⟨"image description", 7⟩
  solutionOutcome := fun _ => CallResult.ok ⟨"print(1)"⟩
  debugOutcome := fun _ _ _ => CallResult.ok ⟨"looks fine"⟩

/-- Property vocabulary: the events marking the start of a pipeline. -/
def isStartKind : EventKind → Bool
  | EventKind.INITIAL_START => true
  | EventKind.DEBUG_START => true
  | _ => false

/-- Property vocabulary: terminal events — a success/extraction, an error,
or the no-op notification. -/
def isTerminalKind : EventKind → Bool
  | EventKind.PROBLEM_EXTRACTED => true
  | EventKind.INITIAL_SOLUTION_ERROR => true
  | EventKind.DEBUG_SUCCESS => true
  | EventKind.DEBUG_ERROR => true
  | EventKind.NO_SCREENSHOTS => true
  | EventKind.INITIAL_START => false
  | EventKind.DEBUG_START => false

/-- Property vocabulary: an event sequence made of at most one start event
followed by exactly one terminal event. -/
def oneStartThenOneTerminal (kinds : List EventKind) : Bool :=
  match kinds with
  | [k] => isTerminalKind k
  | [k1, k2] => isStartKind k1 && isTerminalKind k2
  | _ => false

/-- Property vocabulary: the capture queue `processScreenshots` consults
for the current view. -/
def relevantQueue (s : ProcState) : List String :=
  match s.app.view with
  | View.queue => s.app.screenshotQueue
  | View.solutions => s.app.extraScreenshotQueue

/-- A baseline app state: main window present, queue view, everything
empty. -/
def baseApp : AppStateModel where
  mainWindowPresent := true
  view := View.queue
  screenshotQueue := []
  extraScreenshotQueue := []
  problemInfo := none
  hasDebugged := false

/-- Baseline orchestrator state with no live controllers. -/
def baseState : ProcState where
  app := baseApp
  currentProcessingAbortController := none
  currentExtraProcessingAbortController := none

/-- Queue view with one image capture queued. -/
def queueImageState : ProcState :=
  { baseState with app := { baseApp with screenshotQueue := ["a.png"] } }

/-- Queue view with one audio capture queued. -/
def audioState : ProcState :=
  { baseState with app := { baseApp with screenshotQueue := ["clip.wav"] } }

/-- Solutions view with a debug capture queued and no problem info set. -/
def noInfoDebugState : ProcState :=
  { baseState with app :=
      { baseApp with view := View.solutions, extraScreenshotQueue := ["d.png"] } }

/-- Queue view with a capture whose extension is `.MP3` in upper case. -/
def upperExtState : ProcState :=
  { baseState with app := { baseApp with screenshotQueue := ["x.MP3"] } }

/-- Helper state whose active Gemini handle was built from key `"A"`. -/
def helperA : LLMState where
  model := some ⟨"A"⟩
  useOllama := false
  ollamaModel := "llama3.2"
  ollamaUrl := "http://localhost:11434"

/-- The image branch of `processScreenshots` is the composition of its
synchronous prefix `imagePhase1`, the awaited adapter call, and the
continuation `imagePhase2`; this ties the phase-split model used for the
interleaving analyses back to the one-shot function. -/
theorem processScreenshots_image_decomp (env : AdapterEnv) (s : ProcState)
    (hw : s.app.mainWindowPresent = true)
    (hv : s.app.view = View.queue)
    (hq : s.app.screenshotQueue.isEmpty = false)
    (hna : isAudioSuffix (s.app.screenshotQueue.getLast?.getD "") = false) :
    processScreenshots env s =
      { state := (imagePhase2
          (env.imageOutcome (s.app.screenshotQueue.getLast?.getD ""))
          (imagePhase1 s).1).1
        events := (imagePhase1 s).2 ++
          (imagePhase2 (env.imageOutcome (s.app.screenshotQueue.getLast?.getD ""))
            (imagePhase1 s).1).2
        calls := [AdapterOp.analyzeImageFileOp
          (s.app.screenshotQueue.getLast?.getD "")] } := by
  cases hres : env.imageOutcome (s.app.screenshotQueue.getLast?.getD "") with
  | ok r =>
    simp [processScreenshots, imagePhase1, imagePhase2, hw, hv, hq, hna, hres]
  | err m =>
    simp [processScreenshots, imagePhase1, imagePhase2, hw, hv, hq, hna, hres]

/-- The debug branch of `processScreenshots` with problem info present is
the composition of its synchronous prefix `debugPhase1`, the awaited
adapter calls, and the continuation `debugPhase2`; this ties the
phase-split model of the debug channel back to the one-shot function. -/
theorem processScreenshots_debug_decomp (env : AdapterEnv) (s : ProcState)
    (p : ProblemInfo)
    (hw : s.app.mainWindowPresent = true)
    (hv : s.app.view = View.solutions)
    (hq : s.app.extraScreenshotQueue.isEmpty = false)
    (hp : s.app.problemInfo = some p) :
    processScreenshots env s =
      { state := (debugPhase2 (env.solutionOutcome p)
          (fun code => env.debugOutcome p code s.app.extraScreenshotQueue)
          (debugPhase1 s).1).1
        events := (debugPhase1 s).2 ++
          (debugPhase2 (env.solutionOutcome p)
            (fun code => env.debugOutcome p code s.app.extraScreenshotQueue)
            (debugPhase1 s).1).2
        calls := AdapterOp.generateSolutionOp ::
          (match env.solutionOutcome p with
           | CallResult.ok _ => [AdapterOp.debugSolutionOp]
           | CallResult.err _ => []) } := by
  cases hsol : env.solutionOutcome p with
  | ok sol =>
    cases hdbg : env.debugOutcome p sol.code s.app.extraScreenshotQueue <;>
      simp [processScreenshots, debugPhase1, debugPhase2, hw, hv, hq, hp,
        hsol, hdbg]
  | err m =>
    simp [processScreenshots, debugPhase1, debugPhase2, hw, hv, hq, hp, hsol]

/-- C9: `cancelOngoingRequests` signals `abort()` on whichever of the two
controller fields is non-null, leaves both fields null afterwards, resets
`hasDebugged` to `false`, and mutates nothing else — whether or not any
request is in flight. -/
theorem c9_cancel_clears_state (s : ProcState) :
    (cancelOngoingRequests s).1.currentProcessingAbortController = none ∧
    (cancelOngoingRequests s).1.currentExtraProcessingAbortController = none ∧
    (cancelOngoingRequests s).1.app.hasDebugged = false ∧
    (cancelOngoingRequests s).2.1 = s.currentProcessingAbortController.isSome ∧
    (cancelOngoingRequests s).2.2 = s.currentExtraProcessingAbortController.isSome ∧
    (cancelOngoingRequests s).1.app.view = s.app.view ∧
    (cancelOngoingRequests s).1.app.screenshotQueue = s.app.screenshotQueue ∧
    (cancelOngoingRequests s).1.app.extraScreenshotQueue
      = s.app.extraScreenshotQueue ∧
    (cancelOngoingRequests s).1.app.problemInfo = s.app.problemInfo ∧
    (cancelOngoingRequests s).1.app.mainWindowPresent
      = s.app.mainWindowPresent := by
  simp [cancelOngoingRequests]

/-- C7: when the queue relevant to the current view is empty,
`processScreenshots` publishes exactly `NO_SCREENSHOTS`, invokes no
adapter operation, and returns the state unchanged (view, problem info,
`hasDebugged` and both controller fields included). -/
theorem c7_empty_queue_frame_effect (env : AdapterEnv) (s : ProcState)
    (hw : s.app.mainWindowPresent = true)
    (hq : relevantQueue s = []) :
    processScreenshots env s =
      { state := s
        events := [⟨EventKind.NO_SCREENSHOTS, EventPayload.noPayload⟩]
        calls := [] } := by
  cases hv : s.app.view <;>
    simp only [relevantQueue, hv] at hq <;>
    simp [processScreenshots, hw, hv, hq]

/-- C7 witness: the empty-queue run on the baseline state. -/
theorem c7_empty_queue_frame_effect_witness :
    baseState.app.mainWindowPresent = true ∧
    relevantQueue baseState = [] ∧
    processScreenshots sampleEnv baseState =
      { state := baseState
        events := [⟨EventKind.NO_SCREENSHOTS, EventPayload.noPayload⟩]
        calls := [] } :=
  ⟨rfl, rfl, c7_empty_queue_frame_effect sampleEnv baseState rfl rfl⟩

/-- C6: in solutions view with a non-empty debug queue and no problem info
set, `processScreenshots` publishes `DEBUG_START` followed by
`DEBUG_ERROR("No problem info available")` and never calls the adapter. -/
theorem c6_debug_without_probleminfo (env : AdapterEnv) (s : ProcState)
    (hw : s.app.mainWindowPresent = true)
    (hv : s.app.view = View.solutions)
    (hq : s.app.extraScreenshotQueue.isEmpty = false)
    (hp : s.app.problemInfo = none) :
    (processScreenshots env s).events =
      [⟨EventKind.DEBUG_START, EventPayload.noPayload⟩,
       ⟨EventKind.DEBUG_ERROR,
        EventPayload.messagePayload "No problem info available"⟩] ∧
    (processScreenshots env s).calls = [] := by
  simp [processScreenshots, hw, hv, hq, hp]

/-- C6 witness: the missing-problem-info debug run on a concrete state. -/
theorem c6_debug_without_probleminfo_witness :
    noInfoDebugState.app.mainWindowPresent = true ∧
    noInfoDebugState.app.view = View.solutions ∧
    noInfoDebugState.app.extraScreenshotQueue.isEmpty = false ∧
    noInfoDebugState.app.problemInfo = none ∧
    ((processScreenshots sampleEnv noInfoDebugState).events =
      [⟨EventKind.DEBUG_START, EventPayload.noPayload⟩,
       ⟨EventKind.DEBUG_ERROR,
        EventPayload.messagePayload "No problem info available"⟩] ∧
     (processScreenshots sampleEnv noInfoDebugState).calls = []) :=
  ⟨rfl, rfl, rfl, rfl,
   c6_debug_without_probleminfo sampleEnv noInfoDebugState rfl rfl rfl rfl⟩

/-- C8: when the backend reports a non-empty model list that does not
contain the configured model, `initializeOllamaModel` ends with the first
listed model as the active one, whether or not the probe prompt succeeds
(`initializeOllamaModel` is total, so a probe failure never escapes
initialization). -/
theorem c8_ollama_model_fallback (probeOk : Bool) (cfg m : String)
    (rest : List String)
    (hc : (m :: rest).contains cfg = false) :
    initializeOllamaModel (m :: rest) (m :: rest) probeOk cfg = m := by
  have hc' : cfg ∉ (m :: rest) := by simpa using hc
  cases probeOk <;> simp [initializeOllamaModel, hc']

/-- C8 witness: configured model `"gemma:latest"`, backend list
`["llama3.2", "mistral"]`, probe failing. -/
theorem c8_ollama_model_fallback_witness :
    (["llama3.2", "mistral"] : List String).contains "gemma:latest" = false ∧
    initializeOllamaModel ["llama3.2", "mistral"] ["llama3.2", "mistral"]
      false "gemma:latest" = "llama3.2" :=
  ⟨by decide,
   c8_ollama_model_fallback false "gemma:latest" "llama3.2" ["mistral"]
     (by decide)⟩

/-- C4: for every call to `processScreenshots` (with a main window
present), the published event sequence is exactly one terminal event,
preceded by at most one start event, and no adapter operation is invoked
twice (no automatic retry). -/
theorem c4_exactly_one_terminal_event (env : AdapterEnv) (s : ProcState)
    (hw : s.app.mainWindowPresent = true) :
    oneStartThenOneTerminal
      ((processScreenshots env s).events.map Event.kind) = true ∧
    (processScreenshots env s).calls.Nodup := by
  cases hv : s.app.view with
  | queue =>
    cases hq : s.app.screenshotQueue.isEmpty with
    | true =>
      simp [processScreenshots, hw, hv, hq, oneStartThenOneTerminal,
        isTerminalKind]
    | false =>
      cases ha : isAudioSuffix (s.app.screenshotQueue.getLast?.getD "") with
      | true =>
        cases hres : env.audioOutcome (s.app.screenshotQueue.getLast?.getD "") <;>
          simp [processScreenshots, hw, hv, hq, ha, hres,
            oneStartThenOneTerminal, isStartKind, isTerminalKind]
      | false =>
        cases hres : env.imageOutcome (s.app.screenshotQueue.getLast?.getD "") <;>
          simp [processScreenshots, hw, hv, hq, ha, hres,
            oneStartThenOneTerminal, isStartKind, isTerminalKind]
  | solutions =>
    cases hq : s.app.extraScreenshotQueue.isEmpty with
    | true =>
      simp [processScreenshots, hw, hv, hq, oneStartThenOneTerminal,
        isTerminalKind]
    | false =>
      cases hp : s.app.problemInfo with
      | none =>
        simp [processScreenshots, hw, hv, hq, hp, oneStartThenOneTerminal,
          isStartKind, isTerminalKind]
      | some p =>
        cases hsol : env.solutionOutcome p with
        | err m =>
          simp [processScreenshots, hw, hv, hq, hp, hsol,
            oneStartThenOneTerminal, isStartKind, isTerminalKind]
        | ok sol =>
          cases hdbg : env.debugOutcome p sol.code s.app.extraScreenshotQueue <;>
            simp [processScreenshots, hw, hv, hq, hp, hsol, hdbg,
              oneStartThenOneTerminal, isStartKind, isTerminalKind]

/-- C4 witness: one-image run on a concrete state. -/
theorem c4_exactly_one_terminal_event_witness :
    queueImageState.app.mainWindowPresent = true ∧
    (oneStartThenOneTerminal
      ((processScreenshots sampleEnv queueImageState).events.map
        Event.kind) = true ∧
     (processScreenshots sampleEnv queueImageState).calls.Nodup) :=
  ⟨rfl, c4_exactly_one_terminal_event sampleEnv queueImageState rfl⟩

/-- C10: in queue view with a non-empty queue, the pipeline is chosen by
the case-sensitive literal suffix test `isAudioSuffix` — the audio
adapter runs exactly when the last path ends in `.mp3` or `.wav`, and the
image adapter otherwise; in particular `.MP3` and `.m4a` paths go to the
image pipeline. -/
theorem c10_audio_routing_suffix (env : AdapterEnv) (s : ProcState)
    (hw : s.app.mainWindowPresent = true)
    (hv : s.app.view = View.queue)
    (hq : s.app.screenshotQueue.isEmpty = false) :
    ((processScreenshots env s).calls =
      if isAudioSuffix (s.app.screenshotQueue.getLast?.getD "") then
        [AdapterOp.analyzeAudioFileOp (s.app.screenshotQueue.getLast?.getD "")]
      else
        [AdapterOp.analyzeImageFileOp
          (s.app.screenshotQueue.getLast?.getD "")]) ∧
    isAudioSuffix "clip.mp3" = true ∧
    isAudioSuffix "clip.wav" = true ∧
    isAudioSuffix "clip.MP3" = false ∧
    isAudioSuffix "clip.m4a" = false := by
  refine ⟨?_, by decide, by decide, by decide, by decide⟩
  cases ha : isAudioSuffix (s.app.screenshotQueue.getLast?.getD "") with
  | true =>
    cases hres : env.audioOutcome (s.app.screenshotQueue.getLast?.getD "") <;>
      simp [processScreenshots, hw, hv, hq, ha, hres]
  | false =>
    cases hres : env.imageOutcome (s.app.screenshotQueue.getLast?.getD "") <;>
      simp [processScreenshots, hw, hv, hq, ha, hres]

/-- C10 witness: an upper-case `.MP3` capture is routed to the image
pipeline. -/
theorem c10_audio_routing_suffix_witness :
    upperExtState.app.mainWindowPresent = true ∧
    upperExtState.app.view = View.queue ∧
    upperExtState.app.screenshotQueue.isEmpty = false ∧
    (((processScreenshots sampleEnv upperExtState).calls =
      if isAudioSuffix (upperExtState.app.screenshotQueue.getLast?.getD "")
      then
        [AdapterOp.analyzeAudioFileOp
          (upperExtState.app.screenshotQueue.getLast?.getD "")]
      else
        [AdapterOp.analyzeImageFileOp
          (upperExtState.app.screenshotQueue.getLast?.getD "")]) ∧
     isAudioSuffix "clip.mp3" = true ∧
     isAudioSuffix "clip.wav" = true ∧
     isAudioSuffix "clip.MP3" = false ∧
     isAudioSuffix "clip.m4a" = false) :=
  ⟨rfl, rfl, rfl, c10_audio_routing_suffix sampleEnv upperExtState rfl rfl rfl⟩

/-- C5 counterexample: on a `.wav` capture the payload sent with
`PROBLEM_EXTRACTED` is the raw audio analysis result
(`{ text, timestamp }`), not the `ProblemInfo` record the claim
describes (the `ProblemInfo` is only stored in app state afterwards). -/
theorem c5_extracted_payload_not_probleminfo :
    (processScreenshots sampleEnv audioState).events =
      [⟨EventKind.INITIAL_START, EventPayload.noPayload⟩,
       ⟨EventKind.PROBLEM_EXTRACTED,
        EventPayload.analysisPayload ⟨"transcript", 5⟩⟩] ∧
    EventPayload.analysisPayload ⟨"transcript", 5⟩ ≠
      EventPayload.problemPayload (audioProblemInfo "transcript") := by
  decide

/-- C5 amended: on an audio capture, `processScreenshots` publishes
`INITIAL_START`, sets the view to solutions, and on success publishes
`PROBLEM_EXTRACTED` carrying the raw audio analysis result while storing
in app state the `ProblemInfo` whose `problem_statement` is the analysis
text with empty structural fields; the image pipeline is never invoked,
and on failure `INITIAL_SOLUTION_ERROR` is published with the view
remaining solutions. -/
theorem c5_audio_branch_behavior (env : AdapterEnv) (s : ProcState)
    (hw : s.app.mainWindowPresent = true)
    (hv : s.app.view = View.queue)
    (hq : s.app.screenshotQueue.isEmpty = false)
    (ha : isAudioSuffix (s.app.screenshotQueue.getLast?.getD "") = true) :
    (∀ r, env.audioOutcome (s.app.screenshotQueue.getLast?.getD "") =
        CallResult.ok r →
      (processScreenshots env s).events =
        [⟨EventKind.INITIAL_START, EventPayload.noPayload⟩,
         ⟨EventKind.PROBLEM_EXTRACTED, EventPayload.analysisPayload r⟩] ∧
      (processScreenshots env s).state.app.view = View.solutions ∧
      (processScreenshots env s).state.app.problemInfo =
        some (audioProblemInfo r.text) ∧
      (processScreenshots env s).calls =
        [AdapterOp.analyzeAudioFileOp
          (s.app.screenshotQueue.getLast?.getD "")]) ∧
    (∀ m, env.audioOutcome (s.app.screenshotQueue.getLast?.getD "") =
        CallResult.err m →
      (processScreenshots env s).events =
        [⟨EventKind.INITIAL_START, EventPayload.noPayload⟩,
         ⟨EventKind.INITIAL_SOLUTION_ERROR, EventPayload.messagePayload m⟩] ∧
      (processScreenshots env s).state.app.view = View.solutions ∧
      (processScreenshots env s).calls =
        [AdapterOp.analyzeAudioFileOp
          (s.app.screenshotQueue.getLast?.getD "")]) := by
  constructor
  · intro r hres
    simp [processScreenshots, hw, hv, hq, ha, hres]
  · intro m hres
    simp [processScreenshots, hw, hv, hq, ha, hres]

/-- C5 amended witness: concrete `.wav` run with a successful analysis. -/
theorem c5_audio_branch_behavior_witness :
    audioState.app.mainWindowPresent = true ∧
    audioState.app.view = View.queue ∧
    audioState.app.screenshotQueue.isEmpty = false ∧
    isAudioSuffix (audioState.app.screenshotQueue.getLast?.getD "") = true ∧
    ((processScreenshots sampleEnv audioState).events =
      [⟨EventKind.INITIAL_START, EventPayload.noPayload⟩,
       ⟨EventKind.PROBLEM_EXTRACTED,
        EventPayload.analysisPayload ⟨"transcript", 5⟩⟩] ∧
     (processScreenshots sampleEnv audioState).state.app.view
       = View.solutions ∧
     (processScreenshots sampleEnv audioState).state.app.problemInfo =
       some (audioProblemInfo "transcript") ∧
     (processScreenshots sampleEnv audioState).calls =
       [AdapterOp.analyzeAudioFileOp
         (audioState.app.screenshotQueue.getLast?.getD "")]) :=
  ⟨rfl, rfl, rfl, by decide,
   (c5_audio_branch_behavior sampleEnv audioState rfl rfl rfl
      (by decide)).1 ⟨"transcript", 5⟩ rfl⟩

/-- C3 counterexample: a request is in flight (live primary token) when
`cancelOngoingRequests` runs, yet when the adapter call settles the
orchestrator still publishes `PROBLEM_EXTRACTED` for that very call — the
abort signal is never handed to the adapter, so cancellation does not
silence the call. -/
theorem c3_cancel_does_not_suppress_terminal_event :
    (imagePhase1 queueImageState).1.currentProcessingAbortController.isSome
      = true ∧
    ((imagePhase2 (CallResult.ok ⟨"image description", 7⟩)
        (cancelOngoingRequests (imagePhase1 queueImageState).1).1).2.map
          Event.kind) = [EventKind.PROBLEM_EXTRACTED] := by
  decide

/-- C3 amended: `cancelOngoingRequests` during an in-flight request on
either channel clears both tokens (and they are still absent when the
call finishes) and resets `hasDebugged` to `false` — but the cancelled
call is not silent on either channel: the abort signal is never observed
by the adapter calls, so whatever outcome the in-flight call settles
with, its terminal event is still published (`PROBLEM_EXTRACTED` or
`DEBUG_SUCCESS` on success, `INITIAL_SOLUTION_ERROR` or `DEBUG_ERROR` on
failure). -/
theorem c3_cancel_clears_tokens_but_inflight_still_publishes
    (s t : ProcState) (res : CallResult AnalysisResult)
    (solRes : CallResult Solution)
    (dbgOutcome : String → CallResult DebugResult) :
    ((imagePhase2 res (cancelOngoingRequests (imagePhase1 s).1).1).2.map
        Event.kind =
      match res with
      | CallResult.ok _ => [EventKind.PROBLEM_EXTRACTED]
      | CallResult.err _ => [EventKind.INITIAL_SOLUTION_ERROR]) ∧
    (imagePhase2 res
        (cancelOngoingRequests
          (imagePhase1 s).1).1).1.currentProcessingAbortController = none ∧
    (imagePhase2 res
        (cancelOngoingRequests
          (imagePhase1 s).1).1).1.currentExtraProcessingAbortController
      = none ∧
    (cancelOngoingRequests (imagePhase1 s).1).1.app.hasDebugged = false ∧
    ((debugPhase2 solRes dbgOutcome
        (cancelOngoingRequests (debugPhase1 t).1).1).2.map Event.kind =
      match solRes with
      | CallResult.err _ => [EventKind.DEBUG_ERROR]
      | CallResult.ok sol =>
        match dbgOutcome sol.code with
        | CallResult.ok _ => [EventKind.DEBUG_SUCCESS]
        | CallResult.err _ => [EventKind.DEBUG_ERROR]) ∧
    (debugPhase2 solRes dbgOutcome
        (cancelOngoingRequests
          (debugPhase1 t).1).1).1.currentProcessingAbortController = none ∧
    (debugPhase2 solRes dbgOutcome
        (cancelOngoingRequests
          (debugPhase1 t).1).1).1.currentExtraProcessingAbortController
      = none ∧
    (cancelOngoingRequests (debugPhase1 t).1).1.app.hasDebugged = false := by
  cases solRes with
  | ok sol =>
    cases res <;> cases hd : dbgOutcome sol.code <;>
      simp [imagePhase1, imagePhase2, debugPhase1, debugPhase2,
        cancelOngoingRequests, hd]
  | err m =>
    cases res <;>
      simp [imagePhase1, imagePhase2, debugPhase1, debugPhase2,
        cancelOngoingRequests]

/-- C1 counterexample: an `analyzeImageFile` request starts while the
helper holds the Gemini handle built from key `"A"`; a
`switchToGemini("B")` completes during the file-read await of the request; the
request then issues `generateContent` on the handle built from `"B"` —
it is redirected mid-flight, contrary to the claim. -/
theorem c1_switch_redirects_inflight_request :
    helperA.model = some ⟨"A"⟩ ∧
    (runSteps [HelperStep.fileReadStep, HelperStep.switchGeminiStep "B",
      HelperStep.generateStep] helperA).usedModel = some ⟨"B"⟩ ∧
    (GeminiModel.mk "B") ≠ (GeminiModel.mk "A") := by
  decide

/-- C1 amended: the provider switch mutates the single shared helper in
place, so an in-flight request resolves against whatever model handle is
installed at the moment its `generateContent` step runs: if a
`switchToGemini(k)` completes during the file-read suspension of the request
then the request completes against the new handle, and only a request whose
suspension sees no switch completes against the handle active at its
start. -/
theorem c1_request_uses_model_at_generate_step (h : LLMState) (k : String) :
    (runSteps [HelperStep.fileReadStep, HelperStep.switchGeminiStep k,
      HelperStep.generateStep] h).usedModel = some (geminiModelOf k) ∧
    (runSteps [HelperStep.fileReadStep, HelperStep.generateStep] h).usedModel
      = h.model := by
  simp [runSteps, stepRun, switchToGemini, geminiModelOf]
